import Mathlib

/-!
Verification of the HTML-splicing core of `scripts/update_news.py`.

The program patches a static `index.html` in two steps (function
`update_index_html`):

1. `re.sub(r'<span id="date-text">[^<]+</span>', new_date, html)`
2. `re.sub(r"(<!-- What's Hot -->).*?(</div>\s*</div>\s*</div>\s*</body>)",
           replacement, html, flags=re.DOTALL)`

and only afterwards writes the file.  Both patterns are backtracking-free:

* in pattern 1, `[^<]+` is a run of characters other than `<`; since
  `</span>` begins with `<`, only the maximal run can be followed by the
  literal, so matching is deterministic;
* in pattern 2, `.*?` is lazy, hence the closing sequence used is the first
  position after the marker where `</div>\s*</div>\s*</div>\s*</body>`
  matches; inside that sequence each greedy `\s*` is followed by a literal
  `<`, and no whitespace character is `<`, so again no backtracking point
  can succeed after the greedy choice fails.

Documents are embedded as `List Char`.  `re.sub` replaces every
non-overlapping match, scanning left to right and resuming after each
match; the replacement string is a template (`\1`, `\g<0>`, `\\`, octal and
letter escapes), compiled before the scan, so a bad escape raises even when
nothing matches.  `\s` is modelled by the whitespace characters Python's
`re` accepts for `str` patterns.

External collaborators are modelled at their boundary, as the spec directs:
the network call of `generate_news_content` and the stdlib `json.loads`
enter as `Except` parameters carrying either their result or their failure.
Everything downstream of those two calls is translated from the source.
-/

namespace UpdateNews

/-- A document or fragment: Python `str`, embedded as a list of characters. -/
abbrev Str := List Char

/-- Python's `\s` class for `str` patterns (`re` whitespace). -/
def pySpace (c : Char) : Bool :=
  c = ' ' || c = '\t' || c = '\n' || c = '\r' || c = '\x0b' || c = '\x0c' ||
  c = '\x1c' || c = '\x1d' || c = '\x1e' || c = '\x1f' || c = '\u0085' ||
  c = '\u00a0' || c = '\u1680' || ('\u2000' ≤ c && c ≤ '\u200a') ||
  c = '\u2028' || c = '\u2029' || c = '\u202f' || c = '\u205f' || c = '\u3000'

def isDigitC (c : Char) : Bool := '0' ≤ c && c ≤ '9'

def isOctC (c : Char) : Bool := '0' ≤ c && c ≤ '7'

def isAsciiLet (c : Char) : Bool := ('a' ≤ c && c ≤ 'z') || ('A' ≤ c && c ≤ 'Z')

def digitVal (c : Char) : Nat := c.toNat - '0'.toNat

/-- The literal marker comment `<!-- What's Hot -->` (group 1 of the cards
pattern). -/
def markerS : Str := "<!-- What's Hot -->".data

/-- The literal opening of the date anchor. -/
def openSpanS : Str := "<span id=\"date-text\">".data

def closeSpanS : Str := "</span>".data

def divCloseS : Str := "</div>".data

def bodyCloseS : Str := "</body>".data

/-- The fixed closing scaffold the replacement writes back:
`'\n        </div>\n    </div>\n</body>'` in the source. -/
def scaffoldS : Str := "\n        </div>\n    </div>\n</body>".data

def nlS : Str := "\n".data

/-- The separator `"\n\n".join(cards_html)` uses: one blank line. -/
def blankS : Str := "\n\n".data

/-- `dropLit lit l` strips the literal `lit` from the front of `l`,
or fails. -/
def dropLit : Str → Str → Option Str
  | [], l => some l
  | _ :: _, [] => none
  | p :: ps, c :: cs => if c = p then dropLit ps cs else none

/-- Split off the maximal leading run of `re` whitespace. -/
def takeWs : Str → Str × Str
  | [] => ([], [])
  | c :: cs =>
    if pySpace c then
      let (w, r) := takeWs cs
      (c :: w, r)
    else ([], c :: cs)

/-- Split off the maximal leading run matching `[^<]*`. -/
def takeNonLt : Str → Str × Str
  | [] => ([], [])
  | c :: cs =>
    if c = '<' then ([], c :: cs)
    else
      let (w, r) := takeNonLt cs
      (c :: w, r)

/-- Match of `<span id="date-text">[^<]+</span>` anchored at the front:
`some (matched, rest)` or `none`.  Deterministic, as argued above. -/
def dateMatch (l : Str) : Option (Str × Str) :=
  (dropLit openSpanS l).bind fun r1 =>
    if (takeNonLt r1).1 = [] then none
    else
      (dropLit closeSpanS (takeNonLt r1).2).map fun rest =>
        (openSpanS ++ (takeNonLt r1).1 ++ closeSpanS, rest)

/-- Match of `</div>\s*</div>\s*</div>\s*</body>` anchored at the front:
`some (matched, rest)` or `none`. -/
def closeMatch (l : Str) : Option (Str × Str) :=
  (dropLit divCloseS l).bind fun r1 =>
  (dropLit divCloseS (takeWs r1).2).bind fun r2 =>
  (dropLit divCloseS (takeWs r2).2).bind fun r3 =>
  (dropLit bodyCloseS (takeWs r3).2).map fun rest =>
    (divCloseS ++ (takeWs r1).1 ++ divCloseS ++ (takeWs r2).1 ++ divCloseS ++
      (takeWs r3).1 ++ bodyCloseS, rest)

/-- The lazy `.*?` before the closing sequence: the first position where
`closeMatch` succeeds.  `some (middle, matched, rest)`. -/
def findClose : Str → Option (Str × Str × Str)
  | [] => none
  | c :: cs =>
    match closeMatch (c :: cs) with
    | some (m, rest) => some ([], m, rest)
    | none => (findClose cs).map fun p => (c :: p.1, p.2.1, p.2.2)

theorem dropLit_length {p l r : Str} (h : dropLit p l = some r) :
    r.length + p.length = l.length := by
  induction p generalizing l with
  | nil => simp [dropLit] at h; simp [h]
  | cons x xs ih =>
    cases l with
    | nil => simp [dropLit] at h
    | cons c cs =>
      simp only [dropLit] at h
      split at h
      · have := ih h
        simp only [List.length_cons]
        omega
      · exact absurd h (by simp)

theorem takeWs_length (l : Str) : (takeWs l).2.length ≤ l.length := by
  induction l with
  | nil => simp [takeWs]
  | cons c cs ih =>
    simp only [takeWs]
    split
    · simpa using Nat.le_succ_of_le ih
    · simp

theorem takeNonLt_length (l : Str) : (takeNonLt l).2.length ≤ l.length := by
  induction l with
  | nil => simp [takeNonLt]
  | cons x xs ih =>
    simp only [takeNonLt]
    split
    · simp
    · simpa using Nat.le_succ_of_le ih

theorem closeMatch_length {l m rest : Str} (h : closeMatch l = some (m, rest)) :
    rest.length < l.length := by
  simp only [closeMatch, Option.bind_eq_some, Option.map_eq_some'] at h
  obtain ⟨r1, h1, r2, h2, r3, h3, r4, h4, hpair⟩ := h
  have hl1 := dropLit_length h1
  have hl2 := dropLit_length h2
  have hl3 := dropLit_length h3
  have hl4 := dropLit_length h4
  have t1 := takeWs_length r1
  have t2 := takeWs_length r2
  have t3 := takeWs_length r3
  have hrest : rest = r4 := by
    have := congrArg Prod.snd hpair
    simpa using this.symm
  subst hrest
  have hdiv : 0 < divCloseS.length := by decide
  omega

theorem findClose_length {l mid m rest : Str}
    (h : findClose l = some (mid, m, rest)) : rest.length < l.length := by
  induction l generalizing mid m rest with
  | nil => simp [findClose] at h
  | cons c cs ih =>
    simp only [findClose] at h
    cases h1 : closeMatch (c :: cs) with
    | some p =>
      obtain ⟨m0, rest0⟩ := p
      rw [h1] at h
      simp at h
      obtain ⟨hmid, hm, hr⟩ := h
      subst hr
      exact closeMatch_length h1
    | none =>
      rw [h1] at h
      cases h2 : findClose cs with
      | none => rw [h2] at h; exact absurd h (by simp)
      | some q =>
        obtain ⟨mid0, m0, rest0⟩ := q
        rw [h2] at h
        simp at h
        obtain ⟨hmid, hm, hr⟩ := h
        subst hr
        exact Nat.lt_succ_of_lt (ih h2)

/-- Failures the run can raise before the file is written: a bad escape or
invalid group reference in a replacement template (`re.error`), a
`json.loads` failure, and a failure of the content-generation API call. -/
inductive PyErr where
  | badEscape : PyErr
  | invalidGroup : PyErr
  | jsonError : PyErr
  | requestError : PyErr
  deriving DecidableEq

instance {ε α : Type} [DecidableEq ε] [DecidableEq α] :
    DecidableEq (Except ε α) := fun a b =>
  match a, b with
  | .error x, .error y =>
    if h : x = y then .isTrue (by rw [h])
    else .isFalse (fun c => h (by cases c; rfl))
  | .error _, .ok _ => .isFalse (fun c => Except.noConfusion c)
  | .ok _, .error _ => .isFalse (fun c => Except.noConfusion c)
  | .ok x, .ok y =>
    if h : x = y then .isTrue (by rw [h])
    else .isFalse (fun c => h (by cases c; rfl))

/-- One piece of a compiled replacement template: a literal chunk or a
group reference. -/
inductive TItem where
  | lit : Str → TItem
  | grp : Nat → TItem
  deriving DecidableEq

/-- Collect a leading run of decimal digits. -/
def takeDigits : Str → Str × Str
  | [] => ([], [])
  | c :: cs =>
    if isDigitC c then
      let (d, r) := takeDigits cs
      (c :: d, r)
    else ([], c :: cs)

def natOfDigits : Str → Nat
  | [] => 0
  | ds => ds.foldl (fun a c => 10 * a + digitVal c) 0

/-- One escape of a replacement template, read after the backslash, as
`sre_parse.parse_template` reads it; `some (item, consumed)` gives the
template item and how many characters (beyond the backslash) it consumed:
`\\`; `\g<number>`; `\0` with up to two more octal digits as an octal
escape; `\d`, `\dd` as a group reference unless three octal digits follow
the backslash (then an octal escape, refused above `\377`); the letter
escapes `\a \b \f \n \r \t \v`; any other ASCII letter is a bad escape; any
other character keeps the backslash.  Named groups (`\g<name>`) do not
exist in either pattern of the source, so a non-numeric `\g<...>` is a
(refused) unknown-group reference. -/
def escItem (g : Nat) : Str → Except PyErr (TItem × Nat)
  | [] => .error .badEscape
  | c :: cs =>
    if c = '\\' then .ok (.lit ['\\'], 1)
    else if c = 'g' then
      match cs with
      | '<' :: cs1 =>
        match takeDigits cs1 with
        | (ds, cs2) =>
          match cs2 with
          | '>' :: _ =>
            if ds = [] then .error .badEscape
            else if natOfDigits ds ≤ g then
              .ok (.grp (natOfDigits ds), ds.length + 3)
            else .error .invalidGroup
          | _ => .error .badEscape
      | _ => .error .badEscape
    else if c = '0' then
      match cs with
      | d1 :: d2 :: _ =>
        if isOctC d1 && isOctC d2 then
          .ok (.lit [Char.ofNat (8 * digitVal d1 + digitVal d2)], 3)
        else if isOctC d1 then .ok (.lit [Char.ofNat (digitVal d1)], 2)
        else .ok (.lit ['\x00'], 1)
      | [d1] =>
        if isOctC d1 then .ok (.lit [Char.ofNat (digitVal d1)], 2)
        else .ok (.lit ['\x00'], 1)
      | [] => .ok (.lit ['\x00'], 1)
    else if isDigitC c then
      match cs with
      | d2 :: rest2 =>
        if isDigitC d2 then
          match rest2 with
          | d3 :: _ =>
            if isOctC c && isOctC d2 && isOctC d3 then
              let v := 64 * digitVal c + 8 * digitVal d2 + digitVal d3
              if v > 255 then .error .badEscape
              else .ok (.lit [Char.ofNat v], 3)
            else if 10 * digitVal c + digitVal d2 ≤ g then
              .ok (.grp (10 * digitVal c + digitVal d2), 2)
            else .error .invalidGroup
          | [] =>
            if 10 * digitVal c + digitVal d2 ≤ g then
              .ok (.grp (10 * digitVal c + digitVal d2), 2)
            else .error .invalidGroup
        else if digitVal c ≤ g then .ok (.grp (digitVal c), 1)
        else .error .invalidGroup
      | [] =>
        if digitVal c ≤ g then .ok (.grp (digitVal c), 1)
        else .error .invalidGroup
    else if c = 'a' then .ok (.lit ['\x07'], 1)
    else if c = 'b' then .ok (.lit ['\x08'], 1)
    else if c = 'f' then .ok (.lit ['\x0c'], 1)
    else if c = 'n' then .ok (.lit ['\n'], 1)
    else if c = 'r' then .ok (.lit ['\r'], 1)
    else if c = 't' then .ok (.lit ['\t'], 1)
    else if c = 'v' then .ok (.lit ['\x0b'], 1)
    else if isAsciiLet c then .error .badEscape
    else .ok (.lit ['\\', c], 1)

/-- Compile a replacement template into items, with `g` the pattern's group
count, as Python does before scanning for matches (so a bad template raises
even when nothing matches).  A template with no backslash is used literally
by Python; compiling it yields exactly its characters, so the two agree.
The fuel argument (always at least the text's length, see `parseTemplate`)
only makes the recursion structural. -/
def parseTemplateF (g : Nat) : Nat → Str → Except PyErr (List TItem)
  | _, [] => .ok []
  | 0, _ :: _ => .ok []
  | fuel + 1, c :: r =>
    if c = '\\' then
      match escItem g r with
      | .error e => .error e
      | .ok (item, k) =>
        match parseTemplateF g fuel (r.drop k) with
        | .error e => .error e
        | .ok ts => .ok (item :: ts)
    else
      match parseTemplateF g fuel r with
      | .error e => .error e
      | .ok ts => .ok (TItem.lit [c] :: ts)

def parseTemplate (g : Nat) (t : Str) : Except PyErr (List TItem) :=
  parseTemplateF g t.length t

theorem parseTemplateF_fuel (g : Nat) :
    ∀ (f1 f2 : Nat) (l : Str), l.length ≤ f1 → l.length ≤ f2 →
      parseTemplateF g f1 l = parseTemplateF g f2 l := by
  intro f1
  induction f1 with
  | zero =>
    intro f2 l h1 _
    cases l with
    | nil => cases f2 <;> rfl
    | cons c cs => simp at h1
  | succ a ih =>
    intro f2 l h1 h2
    cases l with
    | nil => cases f2 <;> rfl
    | cons c cs =>
      cases f2 with
      | zero => simp at h2
      | succ b =>
        simp only [parseTemplateF]
        have hcs : cs.length ≤ a := by simpa using h1
        have hcs2 : cs.length ≤ b := by simpa using h2
        split
        · cases hesc : escItem g cs with
          | error e => rfl
          | ok p =>
            obtain ⟨item, k⟩ := p
            have hd : (cs.drop k).length ≤ cs.length := by
              simp [List.length_drop]
            dsimp only
            rw [ih b (cs.drop k) (le_trans hd hcs) (le_trans hd hcs2)]
        · rw [ih b cs hcs hcs2]

/-- Step equations for `parseTemplate`. -/
theorem parseTemplate_nil (g : Nat) : parseTemplate g [] = .ok [] := rfl

theorem parseTemplate_esc {g : Nat} {r : Str} {item : TItem} {k : Nat}
    (h : escItem g r = .ok (item, k)) :
    parseTemplate g ('\\' :: r) =
      match parseTemplate g (r.drop k) with
      | .error e => .error e
      | .ok ts => .ok (item :: ts) := by
  show parseTemplateF g (r.length + 1) ('\\' :: r) = _
  simp only [parseTemplateF, h, if_true, eq_self_iff_true]
  rw [parseTemplateF_fuel g r.length (r.drop k).length (r.drop k)
    (by simp [List.length_drop]) le_rfl]
  rfl

theorem parseTemplate_lit {g : Nat} {c : Char} {r : Str} (h : ¬ c = '\\') :
    parseTemplate g (c :: r) =
      match parseTemplate g r with
      | .error e => .error e
      | .ok ts => .ok (TItem.lit [c] :: ts) := by
  show parseTemplateF g (r.length + 1) (c :: r) = _
  simp only [parseTemplateF, if_neg h]
  rfl

/-- Expand compiled template items at one match: `gs` lists the group
texts, group 0 first (the whole match). -/
def renderItems (gs : List Str) : List TItem → Str
  | [] => []
  | TItem.lit s :: ts => s ++ renderItems gs ts
  | TItem.grp n :: ts => gs.getD n [] ++ renderItems gs ts

/-- `re.sub` for the date pattern: scan left to right, replace every
(non-overlapping) match by the expanded template, resume after the match.
The pattern has no capturing groups, so the group list is just group 0.
The fuel argument (always at least the text's length, see `dateScan`)
only makes the recursion structural. -/
def dateScanF (items : List TItem) : Nat → Str → Str
  | _, [] => []
  | 0, l => l
  | fuel + 1, c :: cs =>
    match dateMatch (c :: cs) with
    | some (m, rest) => renderItems [m] items ++ dateScanF items fuel rest
    | none => c :: dateScanF items fuel cs

def dateScan (items : List TItem) (l : Str) : Str :=
  dateScanF items l.length l

theorem dateMatch_length {l m rest : Str} (h : dateMatch l = some (m, rest)) :
    rest.length < l.length := by
  simp only [dateMatch, Option.bind_eq_some] at h
  obtain ⟨r1, h1, hm2⟩ := h
  split at hm2
  · exact absurd hm2 (by simp)
  · rw [Option.map_eq_some'] at hm2
    obtain ⟨r2, h2, hpair⟩ := hm2
    have hl1 := dropLit_length h1
    have hl2 := dropLit_length h2
    have hrest : rest = r2 := by
      have := congrArg Prod.snd hpair
      simpa using this.symm
    subst hrest
    have ht := takeNonLt_length r1
    have hopen : 0 < openSpanS.length := by decide
    omega

theorem dateScanF_fuel (items : List TItem) :
    ∀ (f1 f2 : Nat) (l : Str), l.length ≤ f1 → l.length ≤ f2 →
      dateScanF items f1 l = dateScanF items f2 l := by
  intro f1
  induction f1 with
  | zero =>
    intro f2 l h1 _
    cases l with
    | nil => cases f2 <;> rfl
    | cons c cs => simp at h1
  | succ a ih =>
    intro f2 l h1 h2
    cases l with
    | nil => cases f2 <;> rfl
    | cons c cs =>
      cases f2 with
      | zero => simp at h2
      | succ b =>
        simp only [dateScanF]
        have hcs : cs.length ≤ a := by simpa using h1
        have hcs2 : cs.length ≤ b := by simpa using h2
        cases hm : dateMatch (c :: cs) with
        | some p =>
          obtain ⟨m, rest⟩ := p
          have hr : rest.length < (c :: cs).length := dateMatch_length hm
          simp only [List.length_cons] at hr
          dsimp only
          rw [ih b rest (by omega) (by omega)]
        | none =>
          dsimp only
          rw [ih b cs hcs hcs2]

/-- Step equations for `dateScan`. -/
theorem dateScan_nil (items : List TItem) : dateScan items [] = [] := rfl

theorem dateScan_match {items : List TItem} {c : Char} {cs m rest : Str}
    (h : dateMatch (c :: cs) = some (m, rest)) :
    dateScan items (c :: cs) = renderItems [m] items ++ dateScan items rest := by
  show dateScanF items (cs.length + 1) (c :: cs) = _
  simp only [dateScanF, h]
  have hr : rest.length < (c :: cs).length := dateMatch_length h
  simp only [List.length_cons] at hr
  rw [dateScanF_fuel items cs.length rest.length rest (by omega) le_rfl]
  rfl

theorem dateScan_nomatch {items : List TItem} {c : Char} {cs : Str}
    (h : dateMatch (c :: cs) = none) :
    dateScan items (c :: cs) = c :: dateScan items cs := by
  show dateScanF items (cs.length + 1) (c :: cs) = _
  simp only [dateScanF, h]
  rfl

/-- `re.sub` for the cards pattern: at each position, the whole pattern
matches iff the marker literal starts there and the closing sequence occurs
somewhere after; the lazy middle takes the first closing occurrence.  On a
match, the expanded template is emitted (group 1 is the marker literal,
group 2 the matched closing sequence) and scanning resumes after the match;
a position where the marker starts but no closing follows is no match, and
scanning moves one character.  The fuel argument (always at least the
text's length, see `cardsScan`) only makes the recursion structural. -/
def cardsScanF (items : List TItem) : Nat → Str → Str
  | _, [] => []
  | 0, l => l
  | fuel + 1, c :: cs =>
    if markerS.isPrefixOf (c :: cs) then
      match findClose ((c :: cs).drop markerS.length) with
      | some (mid, m, rest) =>
        renderItems [markerS ++ mid ++ m, markerS, m] items ++
          cardsScanF items fuel rest
      | none => c :: cardsScanF items fuel cs
    else c :: cardsScanF items fuel cs

def cardsScan (items : List TItem) (l : Str) : Str :=
  cardsScanF items l.length l

theorem cardsScanF_fuel (items : List TItem) :
    ∀ (f1 f2 : Nat) (l : Str), l.length ≤ f1 → l.length ≤ f2 →
      cardsScanF items f1 l = cardsScanF items f2 l := by
  intro f1
  induction f1 with
  | zero =>
    intro f2 l h1 _
    cases l with
    | nil => cases f2 <;> rfl
    | cons c cs => simp at h1
  | succ a ih =>
    intro f2 l h1 h2
    cases l with
    | nil => cases f2 <;> rfl
    | cons c cs =>
      cases f2 with
      | zero => simp at h2
      | succ b =>
        simp only [cardsScanF]
        have hcs : cs.length ≤ a := by simpa using h1
        have hcs2 : cs.length ≤ b := by simpa using h2
        split
        · cases hm : findClose ((c :: cs).drop markerS.length) with
          | some p =>
            obtain ⟨mid, m, rest⟩ := p
            have hr := findClose_length hm
            have hd : ((c :: cs).drop markerS.length).length ≤ cs.length + 1 := by
              simp [List.length_drop]
            simp only [List.length_cons] at hd
            dsimp only
            rw [ih b rest (by omega) (by omega)]
          | none =>
            dsimp only
            rw [ih b cs hcs hcs2]
        · rw [ih b cs hcs hcs2]

/-- Step equations for `cardsScan`. -/
theorem cardsScan_nil (items : List TItem) : cardsScan items [] = [] := rfl

theorem cardsScan_match {items : List TItem} {c : Char} {cs mid m rest : Str}
    (hp : markerS.isPrefixOf (c :: cs) = true)
    (h : findClose ((c :: cs).drop markerS.length) = some (mid, m, rest)) :
    cardsScan items (c :: cs) =
      renderItems [markerS ++ mid ++ m, markerS, m] items ++
        cardsScan items rest := by
  show cardsScanF items (cs.length + 1) (c :: cs) = _
  simp only [cardsScanF, if_pos hp, h]
  have hr := findClose_length h
  have hd : ((c :: cs).drop markerS.length).length ≤ cs.length + 1 := by
    simp [List.length_drop]
  simp only [List.length_cons] at hd
  rw [cardsScanF_fuel items cs.length rest.length rest (by omega) le_rfl]
  rfl

theorem cardsScan_nomatch {items : List TItem} {c : Char} {cs : Str}
    (h : markerS.isPrefixOf (c :: cs) = true →
      findClose ((c :: cs).drop markerS.length) = none) :
    cardsScan items (c :: cs) = c :: cardsScan items cs := by
  show cardsScanF items (cs.length + 1) (c :: cs) = _
  by_cases hp : markerS.isPrefixOf (c :: cs) = true
  · simp only [cardsScanF, if_pos hp, h hp]
    rfl
  · simp only [cardsScanF, if_neg hp]
    rfl

/-- One source link of a section: `{"name": ..., "url": ...}`. -/
structure Source where
  name : Str
  url : Str
  deriving DecidableEq

/-- One section record of the JSON payload, as `update_index_html` reads
it: `label`, `headline`, `paragraphs`, `sources`. -/
structure Section where
  label : Str
  headline : Str
  paragraphs : List Str
  sources : List Source
  deriving DecidableEq

/-- The parsed payload `{"sections": [...]}`. -/
structure NewsData where
  sections : List Section
  deriving DecidableEq

/-- The fields of `get_date_info()` that `update_index_html` interpolates
into the date replacement. -/
structure DateInfo where
  weekday : Str
  month : Str
  day : Str
  year : Str
  deriving DecidableEq

/-- Python `sep.join(xs)`. -/
def joinSep (sep : Str) : List Str → Str
  | [] => []
  | [x] => x
  | x :: xs => x ++ sep ++ joinSep sep xs

/-- `build_card_html(section, collapsed)`: the f-string of the source,
with `paragraphs_html` the `"\n                    "`-join of the
`<p>...</p>`-wrapped paragraphs and `sources_html` the `", "`-join of the
anchor links.  Content is embedded verbatim, no escaping. -/
def build_card_html (s : Section) (collapsed : Bool) : Str :=
  let collapsed_class : Str := if collapsed then " collapsed".data else []
  let paragraphs_html : Str :=
    joinSep "\n                    ".data
      (s.paragraphs.map fun p => "<p>".data ++ p ++ "</p>".data)
  let sources_html : Str :=
    joinSep ", ".data
      (s.sources.map fun src =>
        "<a href=\"".data ++ src.url ++ "\">".data ++ src.name ++ "</a>".data)
  "            <div class=\"card".data ++ collapsed_class ++
    "\" onclick=\"this.classList.toggle('collapsed')\">\n                <div class=\"card-label\">".data ++
    s.label ++
    "</div>\n                <h3>".data ++
    s.headline ++
    "</h3>\n                <div class=\"card-content\">\n                    ".data ++
    paragraphs_html ++
    "\n                </div>\n                <div class=\"card-source\">".data ++
    sources_html ++
    "</div>\n            </div>".data

/-- Python `enumerate`, from index `n`. -/
def enumF (n : Nat) : List Section → List (Nat × Section)
  | [] => []
  | s :: ss => (n, s) :: enumF (n + 1) ss

/-- The `cards_html` list of `update_index_html`: each section rendered in
order, `collapsed = i >= 4` from `enumerate`. -/
def renderCards (ss : List Section) : List Str :=
  (enumF 0 ss).map fun p => build_card_html p.2 (decide (4 ≤ p.1))

/-- The interpolated date text
`{weekday}, {month} {day}, {year}` of the date replacement. -/
def date_text (di : DateInfo) : Str :=
  di.weekday ++ ", ".data ++ di.month ++ " ".data ++ di.day ++ ", ".data ++
    di.year

/-- `new_date`, the replacement string of the date substitution. -/
def new_date (di : DateInfo) : Str :=
  openSpanS ++ date_text di ++ closeSpanS

/-- `replacement`, the replacement string of the cards substitution:
the marker comment, a newline, the `"\n\n"`-joined cards, and the fixed
closing scaffold. -/
def cards_repl (cards : List Str) : Str :=
  markerS ++ nlS ++ joinSep blankS cards ++ scaffoldS

/-- `re.sub(date_pattern, new_date, html)` as a value:
compile the replacement template (0 groups), then scan. -/
def dateSub (repl doc : Str) : Except PyErr Str :=
  (parseTemplate 0 repl).map fun items => dateScan items doc

/-- `re.sub(cards_pattern, replacement, html, flags=re.DOTALL)` as a
value: compile the replacement template (2 groups), then scan. -/
def cardsSub (repl doc : Str) : Except PyErr Str :=
  (parseTemplate 2 repl).map fun items => cardsScan items doc

/-- `update_index_html` as a function from the current file content to
the content it writes back, or the exception it raises first.  `parsed`
stands for the outcome of the stdlib call `json.loads(sections_data)`
(modelled at its boundary); the source runs the date substitution, then
the parse, then builds the cards, then the cards substitution, and only
then writes. -/
def update_index_html (html : Str) (di : DateInfo)
    (parsed : Except PyErr NewsData) : Except PyErr Str := do
  let html1 ← dateSub (new_date di) html
  let data ← parsed
  let cards := renderCards data.sections
  cardsSub (cards_repl cards) html1

/-- The content of `index.html` after a run of `update_index_html`: the
file is opened for writing only after both substitutions succeeded in
memory, so when an exception is raised the file keeps its bytes. -/
def finalIndexHtml (html : Str) (di : DateInfo)
    (parsed : Except PyErr NewsData) : Str :=
  match update_index_html html di parsed with
  | .ok out => out
  | .error _ => html

/-- The content of `index.html` after a run of `main()`: `request` is the
outcome of the `generate_news_content` API call (external collaborator),
carrying on success the `json.loads` outcome for the returned payload;
when the call fails, `update_index_html` is never reached and the file
keeps its bytes. -/
def mainFinalFile (orig : Str) (di : DateInfo)
    (request : Except PyErr (Except PyErr NewsData)) : Str :=
  match request with
  | .error _ => orig
  | .ok parsed => finalIndexHtml orig di parsed

/-! Decidable conditions the theorems hypothesise, and the scan lemmas. -/

/-- No character of `l` is `b`. -/
def noChar (b : Char) : Str → Bool
  | [] => true
  | c :: cs => if c = b then false else noChar b cs

/-- `pat` occurs nowhere in `l` as a contiguous substring. -/
def noOcc (pat : Str) : Str → Bool
  | [] => !pat.isPrefixOf []
  | c :: cs => !pat.isPrefixOf (c :: cs) && noOcc pat cs

/-- `pat` starts at no position strictly before `k` in `l`. -/
def noStartIn (pat : Str) : Str → Nat → Bool
  | _, 0 => true
  | [], _ + 1 => true
  | c :: cs, k + 1 => !pat.isPrefixOf (c :: cs) && noStartIn pat cs k

/-- The date pattern matches at no position of `l`. -/
def noDateStart : Str → Bool
  | [] => true
  | c :: cs => (dateMatch (c :: cs)).isNone && noDateStart cs

/-- The date pattern matches at no position strictly before `k` in `l`. -/
def noDateStartIn : Str → Nat → Bool
  | _, 0 => true
  | [], _ + 1 => true
  | c :: cs, k + 1 => (dateMatch (c :: cs)).isNone && noDateStartIn cs k

theorem dropLit_append (p t : Str) : dropLit p (p ++ t) = some t := by
  induction p with
  | nil => rfl
  | cons c cs ih =>
    simp only [List.cons_append, dropLit, if_pos rfl]
    exact ih

theorem isPrefixOf_append_self (p t : Str) : p.isPrefixOf (p ++ t) = true := by
  simp [List.isPrefixOf_iff_prefix]

/-- A backslash-free template compiles to its own characters as literals. -/
theorem parseTemplate_noBackslash {g : Nat} {t : Str}
    (h : noChar '\\' t = true) :
    parseTemplate g t = .ok (t.map fun c => TItem.lit [c]) := by
  induction t with
  | nil => rfl
  | cons c cs ih =>
    simp only [noChar] at h
    split at h
    · exact absurd h (by simp)
    · rename_i hc
      rw [parseTemplate_lit hc, ih h]
      rfl

/-- Expanding a template of literal characters returns the template. -/
theorem renderItems_lits (gs : List Str) (t : Str) :
    renderItems gs (t.map fun c => TItem.lit [c]) = t := by
  induction t with
  | nil => rfl
  | cons c cs ih =>
    simp only [List.map_cons, renderItems, ih]
    rfl

/-- The date scan copies a region in which the pattern never matches. -/
theorem dateScan_skip {items : List TItem} (xs ys : Str)
    (h : noDateStartIn (xs ++ ys) xs.length = true) :
    dateScan items (xs ++ ys) = xs ++ dateScan items ys := by
  induction xs with
  | nil => rfl
  | cons c cs ih =>
    have h' : noDateStartIn ((c :: cs) ++ ys) (cs.length + 1) = true := h
    simp only [List.cons_append, noDateStartIn, List.append_eq] at h'
    rw [Bool.and_eq_true] at h'
    obtain ⟨h1, h2⟩ := h'
    rw [List.cons_append, dateScan_nomatch (Option.isNone_iff_eq_none.mp h1),
      ih h2]
    rfl

/-- The date scan is the identity when the pattern matches nowhere. -/
theorem dateScan_noop {items : List TItem} {l : Str}
    (h : noDateStart l = true) : dateScan items l = l := by
  induction l with
  | nil => rfl
  | cons c cs ih =>
    simp only [noDateStart] at h
    rw [Bool.and_eq_true] at h
    obtain ⟨h1, h2⟩ := h
    rw [dateScan_nomatch (Option.isNone_iff_eq_none.mp h1), ih h2]

theorem takeNonLt_close (t X : Str) (ht : noChar '<' t = true) :
    takeNonLt (t ++ (closeSpanS ++ X)) = (t, closeSpanS ++ X) := by
  induction t with
  | nil =>
    show takeNonLt ('<' :: ("/span>".data ++ X)) = _
    simp [takeNonLt]
    rfl
  | cons c cs ih =>
    simp only [noChar] at ht
    split at ht
    · exact absurd ht (by simp)
    · rename_i hc
      simp only [List.cons_append, takeNonLt, if_neg hc]
      simp only [List.append_eq]
      rw [ih ht]

/-- The date pattern at a well-formed date span: it matches the span
exactly (the span text has no `<` and is nonempty). -/
theorem dateMatch_canonical {t X : Str} (ht : noChar '<' t = true)
    (hne : t ≠ []) :
    dateMatch (openSpanS ++ (t ++ (closeSpanS ++ X))) =
      some (openSpanS ++ t ++ closeSpanS, X) := by
  simp only [dateMatch, dropLit_append, Option.some_bind]
  rw [takeNonLt_close t X ht]
  simp only [if_neg hne, dropLit_append, Option.map_some']

/-- The date scan at a well-formed date span: the span is replaced by the
expanded template (whole match as group 0) and the scan resumes after. -/
theorem dateScan_span {items : List TItem} {t X : Str}
    (ht : noChar '<' t = true) (hne : t ≠ []) :
    dateScan items (openSpanS ++ (t ++ (closeSpanS ++ X))) =
      renderItems [openSpanS ++ t ++ closeSpanS] items ++ dateScan items X := by
  have hexp : openSpanS ++ (t ++ (closeSpanS ++ X)) =
      '<' :: ("span id=\"date-text\">".data ++ (t ++ (closeSpanS ++ X))) := rfl
  rw [hexp]
  rw [dateScan_match (by rw [← hexp]; exact dateMatch_canonical ht hne)]

/-- The cards scan copies a region in which the marker never starts. -/
theorem cardsScan_skip {items : List TItem} (xs ys : Str)
    (h : noStartIn markerS (xs ++ ys) xs.length = true) :
    cardsScan items (xs ++ ys) = xs ++ cardsScan items ys := by
  induction xs with
  | nil => rfl
  | cons c cs ih =>
    have h' : noStartIn markerS ((c :: cs) ++ ys) (cs.length + 1) = true := h
    simp only [List.cons_append, noStartIn, List.append_eq] at h'
    rw [Bool.and_eq_true] at h'
    obtain ⟨h1, h2⟩ := h'
    rw [Bool.not_eq_true'] at h1
    rw [List.cons_append, cardsScan_nomatch (fun hp => absurd hp (by
      rw [h1]; simp)), ih h2]
    rfl

/-- The cards scan is the identity when the marker occurs nowhere. -/
theorem cardsScan_noop {items : List TItem} {l : Str}
    (h : noOcc markerS l = true) : cardsScan items l = l := by
  induction l with
  | nil => rfl
  | cons c cs ih =>
    simp only [noOcc] at h
    rw [Bool.and_eq_true] at h
    obtain ⟨h1, h2⟩ := h
    rw [Bool.not_eq_true'] at h1
    rw [cardsScan_nomatch (fun hp => absurd hp (by rw [h1]; simp)), ih h2]

/-- The cards scan at the marker, when a closing sequence follows: the
match runs to the first closing sequence, the expanded template replaces
it (group 1 the marker, group 2 the matched closing sequence) and the scan
resumes after. -/
theorem cardsScan_marker {items : List TItem} {tail mid cl rest : Str}
    (hfc : findClose tail = some (mid, cl, rest)) :
    cardsScan items (markerS ++ tail) =
      renderItems [markerS ++ mid ++ cl, markerS, cl] items ++
        cardsScan items rest := by
  have hexp : markerS ++ tail = '<' :: ("!-- What's Hot -->".data ++ tail) :=
    rfl
  have hdrop : (markerS ++ tail).drop markerS.length = tail :=
    List.drop_left markerS tail
  rw [hexp]
  rw [cardsScan_match (by rw [← hexp]; exact isPrefixOf_append_self _ _)
    (by rw [← hexp, hdrop]; exact hfc)]

/-- The full cards substitution on a document in the expected layout:
text before the unique marker, the marker, a middle free of closing
sequences, the first closing sequence, and a tail free of markers. -/
theorem cardsScan_canonical {items : List TItem} {pre mid cl post : Str}
    (hpre : noStartIn markerS (pre ++ (markerS ++ (mid ++ (cl ++ post))))
      pre.length = true)
    (hfc : findClose (mid ++ (cl ++ post)) = some (mid, cl, post))
    (hpost : noOcc markerS post = true) :
    cardsScan items (pre ++ (markerS ++ (mid ++ (cl ++ post)))) =
      pre ++ (renderItems [markerS ++ mid ++ cl, markerS, cl] items ++ post) := by
  rw [cardsScan_skip _ _ hpre, cardsScan_marker hfc, cardsScan_noop hpost]

/-- The full date substitution on a document with one well-formed date
span: text before it with no date match, the span, and a tail with no
date match. -/
theorem dateScan_canonical {items : List TItem} {pre t post : Str}
    (hpre : noDateStartIn (pre ++ (openSpanS ++ (t ++ (closeSpanS ++ post))))
      pre.length = true)
    (ht : noChar '<' t = true) (hne : t ≠ [])
    (hpost : noDateStart post = true) :
    dateScan items (pre ++ (openSpanS ++ (t ++ (closeSpanS ++ post)))) =
      pre ++ (renderItems [openSpanS ++ t ++ closeSpanS] items ++ post) := by
  rw [dateScan_skip _ _ hpre, dateScan_span ht hne, dateScan_noop hpost]

/-! The claims. -/

/-- C9: card rendering is total over well-formed `Section` values; with
empty `paragraphs` and empty `sources` it renders (no error is possible)
a card whose content block is empty and whose source line is empty: the
card is exactly the fixed skeleton around the label and headline, with
nothing between the content-block tags beyond the skeleton's whitespace
and nothing inside the source `div`. -/
theorem c9_empty_collections_render (label headline : Str) (c : Bool) :
    build_card_html ⟨label, headline, [], []⟩ c =
      "            <div class=\"card".data ++
        (if c then " collapsed".data else []) ++
        "\" onclick=\"this.classList.toggle('collapsed')\">\n                <div class=\"card-label\">".data ++
        label ++
        "</div>\n                <h3>".data ++
        headline ++
        "</h3>\n                <div class=\"card-content\">\n                    ".data ++
        ([] : Str) ++
        "\n                </div>\n                <div class=\"card-source\">".data ++
        ([] : Str) ++
        "</div>\n            </div>".data := by
  cases c <;> rfl

/-- The class-attribute head that a collapsed card starts with; a
non-collapsed card starts with the same text up to `card` followed by a
closing quote instead of ` collapsed"`. -/
def collapsedHeadS : Str := "            <div class=\"card collapsed\"".data

theorem collapsedHead_true (s : Section) :
    collapsedHeadS.isPrefixOf (build_card_html s true) = true := rfl

theorem collapsedHead_false (s : Section) :
    collapsedHeadS.isPrefixOf (build_card_html s false) = false := rfl

theorem enumF_getElem? (n : Nat) (ss : List Section) (i : Nat) :
    (enumF n ss)[i]? = (ss[i]?).map fun s => (n + i, s) := by
  induction ss generalizing n i with
  | nil => simp [enumF]
  | cons s ss ih =>
    cases i with
    | zero => simp [enumF]
    | succ j =>
      simp only [enumF, List.getElem?_cons_succ, ih (n + 1) j]
      simp only [show n + 1 + j = n + (j + 1) from by omega]

/-- C8: for every sections list, the card rendered at index `i` is built
with the collapsed flag iff `i >= 4` (`collapsed = i >= 4` under
`enumerate`), and the collapsed class attribute appears at the head of the
rendered card iff the flag is set. -/
theorem c8_collapse_threshold (ss : List Section) (i : Nat) :
    (renderCards ss)[i]? =
      (ss[i]?).map (fun s => build_card_html s (decide (4 ≤ i))) ∧
    ∀ s, ss[i]? = some s →
      collapsedHeadS.isPrefixOf (build_card_html s (decide (4 ≤ i))) =
        decide (4 ≤ i) := by
  constructor
  · rw [renderCards, List.getElem?_map, enumF_getElem?]
    cases ss[i]? <;> simp
  · intro s _
    by_cases h4 : 4 ≤ i
    · rw [decide_eq_true h4]
      exact collapsedHead_true s
    · rw [decide_eq_false h4]
      exact collapsedHead_false s

/-- Witness for C8 at a concrete 8-section list: index 4 renders with the
collapsed flag, index 3 without it. -/
theorem c8_collapse_threshold_witness :
    collapsedHeadS.isPrefixOf
        (build_card_html (Section.mk "L".data "H".data [] [])
          (decide (4 ≤ 4))) = decide (4 ≤ 4) ∧
    collapsedHeadS.isPrefixOf
        (build_card_html (Section.mk "L".data "H".data [] [])
          (decide (4 ≤ 3))) = decide (4 ≤ 3) :=
  ⟨(c8_collapse_threshold
      (List.replicate 8 (Section.mk "L".data "H".data [] [])) 4).2 _ rfl,
   (c8_collapse_threshold
      (List.replicate 8 (Section.mk "L".data "H".data [] [])) 3).2 _ rfl⟩

/-- C4: whenever a stage of the run raises — the content-generation
request, the payload parse, or a replacement-template error inside either
substitution — the target file keeps exactly its bytes, and the new
content is written only when every step succeeded in memory. -/
theorem c4_fail_fast (orig : Str) (di : DateInfo)
    (parsed : Except PyErr NewsData) :
    (∀ e, update_index_html orig di parsed = .error e →
      finalIndexHtml orig di parsed = orig) ∧
    (∀ e, mainFinalFile orig di (.error e) = orig) ∧
    (∀ out, update_index_html orig di parsed = .ok out →
      finalIndexHtml orig di parsed = out) := by
  refine ⟨fun e he => ?_, fun e => rfl, fun out ho => ?_⟩
  · unfold finalIndexHtml
    rw [he]
  · unfold finalIndexHtml
    rw [ho]

set_option maxHeartbeats 2000000 in
set_option maxRecDepth 10000 in
/-- Witness for C4: a failing parse and a failing request each leave a
concrete file unchanged. -/
theorem c4_fail_fast_witness :
    finalIndexHtml "<p>x</p>".data
        (DateInfo.mk "Mon".data "Jan".data "01".data "2026".data)
        (.error .jsonError) = "<p>x</p>".data ∧
    mainFinalFile "<p>x</p>".data
        (DateInfo.mk "Mon".data "Jan".data "01".data "2026".data)
        (.error .requestError) = "<p>x</p>".data :=
  ⟨(c4_fail_fast "<p>x</p>".data
      (DateInfo.mk "Mon".data "Jan".data "01".data "2026".data)
      (.error .jsonError)).1 .jsonError (by decide),
   (c4_fail_fast "<p>x</p>".data
      (DateInfo.mk "Mon".data "Jan".data "01".data "2026".data)
      (.error .jsonError)).2.1 .requestError⟩

set_option maxHeartbeats 2000000 in
set_option maxRecDepth 10000 in
/-- C2 counterexample: a document with a date span and no marker comment.
The run raises nothing, returns a document, and rewrites the file with
different bytes (the date span was replaced), against the claim's
"fails with PatchError.CardsAnchorMissing, produces no output document,
and leaves the target file unmutated". -/
theorem c2_counterexample :
    noOcc markerS ("<span id=\"date-text\">old</span>".data) = true ∧
    update_index_html "<span id=\"date-text\">old</span>".data
        (DateInfo.mk "Mon".data "Jan".data "01".data "2026".data)
        (.ok (NewsData.mk [])) =
      .ok (new_date (DateInfo.mk "Mon".data "Jan".data "01".data "2026".data)) ∧
    finalIndexHtml "<span id=\"date-text\">old</span>".data
        (DateInfo.mk "Mon".data "Jan".data "01".data "2026".data)
        (.ok (NewsData.mk [])) ≠
      "<span id=\"date-text\">old</span>".data := by
  refine ⟨by decide, by decide, by decide⟩

/-- C2 amended: when the marker comment is absent from the
date-substituted document, the cards substitution signals no error and is
a silent no-op; the run returns the date-substituted document and writes
it back (so the file is rewritten, with only the date spans changed). -/
theorem c2_missing_marker_noop (doc : Str) (di : DateInfo) (data : NewsData)
    (d1 : Str)
    (hd : dateSub (new_date di) doc = .ok d1)
    (hm : noOcc markerS d1 = true)
    (hb : noChar '\\' (cards_repl (renderCards data.sections)) = true) :
    update_index_html doc di (.ok data) = .ok d1 ∧
    finalIndexHtml doc di (.ok data) = d1 := by
  have hc : cardsSub (cards_repl (renderCards data.sections)) d1 = .ok d1 := by
    rw [cardsSub, parseTemplate_noBackslash hb]
    simp only [Except.map]
    rw [cardsScan_noop hm]
  have hu : update_index_html doc di (.ok data) = .ok d1 := by
    rw [update_index_html, hd]
    simp only [bind, Except.bind]
    exact hc
  refine ⟨hu, ?_⟩
  unfold finalIndexHtml
  rw [hu]

set_option maxHeartbeats 2000000 in
set_option maxRecDepth 10000 in
/-- Witness for the amended C2 at a concrete document with a date span
and no marker. -/
theorem c2_missing_marker_noop_witness :
    update_index_html "A<span id=\"date-text\">old</span>B".data
        (DateInfo.mk "Mon".data "Jan".data "01".data "2026".data)
        (.ok (NewsData.mk [])) =
      .ok ("A".data ++
        new_date (DateInfo.mk "Mon".data "Jan".data "01".data "2026".data) ++
        "B".data) ∧
    finalIndexHtml "A<span id=\"date-text\">old</span>B".data
        (DateInfo.mk "Mon".data "Jan".data "01".data "2026".data)
        (.ok (NewsData.mk [])) =
      "A".data ++
        new_date (DateInfo.mk "Mon".data "Jan".data "01".data "2026".data) ++
        "B".data :=
  c2_missing_marker_noop _ _ _ _ (by decide) (by decide) (by decide)

set_option maxHeartbeats 2000000 in
set_option maxRecDepth 10000 in
/-- C3 counterexample: a document with a marker and closing sequence but
zero occurrences of the date-span anchor.  The patch does not fail: it
returns (and writes) a document, against the claim's "fails with
PatchError.DateAnchorMissing rather than returning a document". -/
theorem c3_counterexample :
    noDateStart
        ("A<!-- What's Hot -->M</div></div></div></body>Z".data) = true ∧
    update_index_html "A<!-- What's Hot -->M</div></div></div></body>Z".data
        (DateInfo.mk "Mon".data "Jan".data "01".data "2026".data)
        (.ok (NewsData.mk [])) =
      .ok ("A".data ++ cards_repl (renderCards []) ++ "Z".data) := by
  exact ⟨by decide, by decide⟩

/-- C3 amended: with zero date-anchor matches the date substitution is a
silent no-op — no failure is signalled, the document passes through
unchanged, and the patch proceeds to the cards substitution. -/
theorem c3_no_date_anchor_noop (doc : Str) (di : DateInfo)
    (hnd : noDateStart doc = true)
    (hb : noChar '\\' (new_date di) = true) :
    dateSub (new_date di) doc = .ok doc ∧
    ∀ data : NewsData, update_index_html doc di (.ok data) =
      cardsSub (cards_repl (renderCards data.sections)) doc := by
  have h1 : dateSub (new_date di) doc = .ok doc := by
    rw [dateSub, parseTemplate_noBackslash hb]
    simp only [Except.map]
    rw [dateScan_noop hnd]
  refine ⟨h1, fun data => ?_⟩
  rw [update_index_html, h1]
  simp only [bind, Except.bind]

set_option maxHeartbeats 2000000 in
set_option maxRecDepth 10000 in
/-- Witness for the amended C3 at a concrete document without a date
anchor. -/
theorem c3_no_date_anchor_noop_witness :
    dateSub (new_date
        (DateInfo.mk "Mon".data "Jan".data "01".data "2026".data))
        "A<!-- What's Hot -->M</div></div></div></body>Z".data =
      .ok "A<!-- What's Hot -->M</div></div></div></body>Z".data ∧
    ∀ data : NewsData,
      update_index_html "A<!-- What's Hot -->M</div></div></div></body>Z".data
        (DateInfo.mk "Mon".data "Jan".data "01".data "2026".data)
        (.ok data) =
      cardsSub (cards_repl (renderCards data.sections))
        "A<!-- What's Hot -->M</div></div></div></body>Z".data :=
  c3_no_date_anchor_noop _ _ (by decide) (by decide)

/-- C1 (amended): on a document in the expected layout — text before the
unique marker comment, the marker, a middle without closing sequences, the
first closing sequence, a marker-free tail — and with backslash-free
rendered cards, the cards substitution replaces everything from the marker
comment through the matched closing sequence by exactly: the marker
comment, a newline, the cards joined by one blank line, and the fixed
closing scaffold verbatim, leaving the rest of the document untouched. -/
theorem c1_cards_region_replacement (cards : List Str)
    (pre mid cl post : Str)
    (hb : noChar '\\' (cards_repl cards) = true)
    (hpre : noStartIn markerS (pre ++ (markerS ++ (mid ++ (cl ++ post))))
      pre.length = true)
    (hfc : findClose (mid ++ (cl ++ post)) = some (mid, cl, post))
    (hpost : noOcc markerS post = true) :
    cardsSub (cards_repl cards) (pre ++ (markerS ++ (mid ++ (cl ++ post)))) =
      .ok (pre ++
        ((markerS ++ nlS ++ joinSep blankS cards ++ scaffoldS) ++ post)) := by
  rw [cardsSub, parseTemplate_noBackslash hb]
  simp only [Except.map]
  rw [cardsScan_canonical hpre hfc hpost, renderItems_lits]
  rfl

set_option maxHeartbeats 2000000 in
set_option maxRecDepth 10000 in
/-- Witness for the amended C1 at a concrete document and one rendered
card. -/
theorem c1_cards_region_replacement_witness :
    cardsSub
        (cards_repl (renderCards [Section.mk "L".data "H".data [] []]))
        ("A".data ++ (markerS ++ ("M".data ++
          ("</div></div></div></body>".data ++ "Z".data)))) =
      .ok ("A".data ++
        ((markerS ++ nlS ++
          joinSep blankS (renderCards [Section.mk "L".data "H".data [] []]) ++
          scaffoldS) ++ "Z".data)) :=
  c1_cards_region_replacement _ _ _ _ _ (by decide) (by decide) (by decide)
    (by decide)

set_option maxHeartbeats 2000000 in
set_option maxRecDepth 10000 in
/-- C1 counterexample: with a rendered card containing a backslash (label
`x\1y`), the cards substitution does not produce the claimed bytes — the
replacement string is a regex template, so `\1` is expanded to group 1
(the marker) instead of being inserted verbatim. -/
theorem c1_counterexample :
    cardsSub
        (cards_repl (renderCards [Section.mk "x\\1y".data "H".data [] []]))
        "A<!-- What's Hot -->M</div></div></div></body>Z".data ≠
      .ok ("A".data ++
        ((markerS ++ nlS ++
          joinSep blankS (renderCards [Section.mk "x\\1y".data "H".data [] []]) ++
          scaffoldS) ++ "Z".data)) := by
  decide

/-- C5 (amended): the cards substitution leaves the bytes strictly before
the marker comment and strictly after the matched closing sequence
untouched, whatever the replacement template expands to at the match (the
date substitution, which the claim's patch also includes, can change bytes
before the marker — see the counterexample). -/
theorem c5_frame (tmpl : Str) (items : List TItem) (pre mid cl post : Str)
    (hparse : parseTemplate 2 tmpl = .ok items)
    (hpre : noStartIn markerS (pre ++ (markerS ++ (mid ++ (cl ++ post))))
      pre.length = true)
    (hfc : findClose (mid ++ (cl ++ post)) = some (mid, cl, post))
    (hpost : noOcc markerS post = true) :
    ∃ region : Str,
      cardsSub tmpl (pre ++ (markerS ++ (mid ++ (cl ++ post)))) =
        .ok (pre ++ (region ++ post)) := by
  refine ⟨renderItems [markerS ++ mid ++ cl, markerS, cl] items, ?_⟩
  rw [cardsSub, hparse]
  simp only [Except.map]
  rw [cardsScan_canonical hpre hfc hpost]

set_option maxHeartbeats 2000000 in
set_option maxRecDepth 10000 in
/-- Witness for the amended C5 at a concrete document and template with a
group reference. -/
theorem c5_frame_witness :
    ∃ region : Str,
      cardsSub "[\\2]".data
        ("A".data ++ (markerS ++ ("M".data ++
          ("</div></div></div></body>".data ++ "Z".data)))) =
        .ok ("A".data ++ (region ++ "Z".data)) :=
  c5_frame _ [TItem.lit ['['], TItem.grp 2, TItem.lit [']']] _ _ _ _
    (by decide) (by decide) (by decide) (by decide)

set_option maxHeartbeats 4000000 in
set_option maxRecDepth 10000 in
/-- C5 counterexample: the claim quantifies over the whole patch, date
substitution included; on a document whose date span lies before the
marker, the bytes strictly before the marker change. -/
theorem c5_counterexample :
    update_index_html
        "<span id=\"date-text\">old</span>B<!-- What's Hot -->M</div></div></div></body>Z".data
        (DateInfo.mk "Mon".data "Jan".data "01".data "2026".data)
        (.ok (NewsData.mk [])) =
      .ok (new_date (DateInfo.mk "Mon".data "Jan".data "01".data "2026".data)
        ++ "B".data ++ cards_repl (renderCards []) ++ "Z".data) ∧
    new_date (DateInfo.mk "Mon".data "Jan".data "01".data "2026".data) ++
        "B".data ≠
      "<span id=\"date-text\">old</span>B".data := by
  exact ⟨by decide, by decide⟩

/-- C7 (amended): through the full update — payload parsed into sections,
each rendered in input order with the collapse flag from its index — the
cards region of the output is exactly the rendered cards in the same
order, joined by one blank line, with no entries added, dropped,
reordered, deduplicated or merged, provided no rendered card contains a
backslash. -/
theorem c7_order_preservation (doc : Str) (di : DateInfo)
    (ss : List Section) (pre mid cl post : Str)
    (hd : dateSub (new_date di) doc =
      .ok (pre ++ (markerS ++ (mid ++ (cl ++ post)))))
    (hb : noChar '\\' (cards_repl (renderCards ss)) = true)
    (hpre : noStartIn markerS (pre ++ (markerS ++ (mid ++ (cl ++ post))))
      pre.length = true)
    (hfc : findClose (mid ++ (cl ++ post)) = some (mid, cl, post))
    (hpost : noOcc markerS post = true) :
    update_index_html doc di (.ok (NewsData.mk ss)) =
      .ok (pre ++
        ((markerS ++ nlS ++ joinSep blankS (renderCards ss) ++ scaffoldS) ++
          post)) := by
  rw [update_index_html, hd]
  simp only [bind, Except.bind]
  rw [cardsSub, parseTemplate_noBackslash hb]
  simp only [Except.map]
  rw [cardsScan_canonical hpre hfc hpost, renderItems_lits]
  rfl

set_option maxHeartbeats 4000000 in
set_option maxRecDepth 10000 in
/-- Witness for the amended C7 at a concrete document and two sections:
both cards appear, in order, joined by one blank line. -/
theorem c7_order_preservation_witness :
    update_index_html
        "A<!-- What's Hot -->M</div></div></div></body>Z".data
        (DateInfo.mk "Mon".data "Jan".data "01".data "2026".data)
        (.ok (NewsData.mk [Section.mk "A1".data "".data [] [],
          Section.mk "B2".data "".data [] []])) =
      .ok ("A".data ++
        ((markerS ++ nlS ++
          joinSep blankS (renderCards [Section.mk "A1".data "".data [] [],
            Section.mk "B2".data "".data [] []]) ++ scaffoldS) ++
          "Z".data)) :=
  c7_order_preservation
    "A<!-- What's Hot -->M</div></div></div></body>Z".data _ _
    "A".data "M".data "</div></div></div></body>".data "Z".data
    (by decide) (by decide) (by decide) (by decide) (by decide)

set_option maxHeartbeats 4000000 in
set_option maxRecDepth 10000 in
/-- C7 counterexample: a section whose paragraph contains `\1`; the cards
region of the output is not the rendered cards joined by a blank line —
the template expansion replaced `\1` by the marker comment inside the
card. -/
theorem c7_counterexample :
    update_index_html
        "A<!-- What's Hot -->M</div></div></div></body>Z".data
        (DateInfo.mk "Mon".data "Jan".data "01".data "2026".data)
        (.ok (NewsData.mk
          [Section.mk "L".data "H".data ["p\\1q".data] []])) ≠
      .ok ("A".data ++
        ((markerS ++ nlS ++
          joinSep blankS (renderCards
            [Section.mk "L".data "H".data ["p\\1q".data] []]) ++
          scaffoldS) ++ "Z".data)) := by
  decide

set_option maxHeartbeats 4000000 in
set_option maxRecDepth 10000 in
/-- C10: rendered card content is passed to the cards substitution as a
regex replacement template, so backslash sequences in section fields are
interpreted rather than inserted verbatim.  For the section labelled
`x\1y` the substitution succeeds but that label appears nowhere in the
output (the group reference became the marker comment), although it does
appear in the rendered card; for the section labelled `a\qb` the
substitution raises `re.error` (bad escape). -/
theorem c10_template_injection :
    (update_index_html
        "A<!-- What's Hot -->M</div></div></div></body>Z".data
        (DateInfo.mk "Mon".data "Jan".data "01".data "2026".data)
        (.ok (NewsData.mk [Section.mk "x\\1y".data "H".data [] []])) =
      .ok "A<!-- What's Hot -->\n            <div class=\"card\" onclick=\"this.classList.toggle('collapsed')\">\n                <div class=\"card-label\">x<!-- What's Hot -->y</div>\n                <h3>H</h3>\n                <div class=\"card-content\">\n                    \n                </div>\n                <div class=\"card-source\"></div>\n            </div>\n        </div>\n    </div>\n</body>Z".data) ∧
    noOcc "x\\1y".data
      "A<!-- What's Hot -->\n            <div class=\"card\" onclick=\"this.classList.toggle('collapsed')\">\n                <div class=\"card-label\">x<!-- What's Hot -->y</div>\n                <h3>H</h3>\n                <div class=\"card-content\">\n                    \n                </div>\n                <div class=\"card-source\"></div>\n            </div>\n        </div>\n    </div>\n</body>Z".data = true ∧
    noOcc "x\\1y".data
      (build_card_html (Section.mk "x\\1y".data "H".data [] []) false) =
      false ∧
    update_index_html
        "A<!-- What's Hot -->M</div></div></div></body>Z".data
        (DateInfo.mk "Mon".data "Jan".data "01".data "2026".data)
        (.ok (NewsData.mk [Section.mk "a\\qb".data "H".data [] []])) =
      .error .badEscape := by
  refine ⟨by decide, by decide, by decide, by decide⟩

theorem dropLit_decomp {p l r : Str} (h : dropLit p l = some r) :
    l = p ++ r := by
  induction p generalizing l with
  | nil => simp [dropLit] at h; simp [h]
  | cons x xs ih =>
    cases l with
    | nil => simp [dropLit] at h
    | cons c cs =>
      simp only [dropLit] at h
      split at h
      · rename_i hc
        subst hc
        rw [List.cons_append, ← ih h]
      · exact absurd h (by simp)

theorem takeWs_decomp (l : Str) : l = (takeWs l).1 ++ (takeWs l).2 := by
  induction l with
  | nil => rfl
  | cons c cs ih =>
    simp only [takeWs]
    split
    · simpa using ih
    · simp

theorem closeMatch_decomp {l m rest : Str} (h : closeMatch l = some (m, rest)) :
    l = m ++ rest := by
  simp only [closeMatch, Option.bind_eq_some, Option.map_eq_some'] at h
  obtain ⟨r1, h1, r2, h2, r3, h3, r4, h4, hpair⟩ := h
  have e1 := dropLit_decomp h1
  have e1w := takeWs_decomp r1
  have e2 := dropLit_decomp h2
  have e2w := takeWs_decomp r2
  have e3 := dropLit_decomp h3
  have e3w := takeWs_decomp r3
  have e4 := dropLit_decomp h4
  have hm : m = divCloseS ++ (takeWs r1).1 ++ divCloseS ++ (takeWs r2).1 ++
      divCloseS ++ (takeWs r3).1 ++ bodyCloseS := by
    have := congrArg Prod.fst hpair
    simpa using this.symm
  have hr : rest = r4 := by
    have := congrArg Prod.snd hpair
    simpa using this.symm
  subst hm
  subst hr
  rw [e1]
  conv_lhs => rw [e1w]
  rw [e2]
  conv_lhs => rw [e2w]
  rw [e3]
  conv_lhs => rw [e3w]
  rw [e4]
  simp [List.append_assoc]

theorem findClose_decomp {l mid m rest : Str}
    (h : findClose l = some (mid, m, rest)) : l = mid ++ (m ++ rest) := by
  induction l generalizing mid m rest with
  | nil => simp [findClose] at h
  | cons c cs ih =>
    simp only [findClose] at h
    cases h1 : closeMatch (c :: cs) with
    | some p =>
      obtain ⟨m0, rest0⟩ := p
      rw [h1] at h
      simp at h
      obtain ⟨hmid, hm, hr⟩ := h
      subst hmid
      subst hm
      subst hr
      simpa using closeMatch_decomp h1
    | none =>
      rw [h1] at h
      cases h2 : findClose cs with
      | none => rw [h2] at h; exact absurd h (by simp)
      | some q =>
        obtain ⟨mid0, m0, rest0⟩ := q
        rw [h2] at h
        simp at h
        obtain ⟨hmid, hm, hr⟩ := h
        subst hm
        subst hr
        rw [← hmid, List.cons_append]
        rw [← ih h2]

theorem date_text_ne_nil (di : DateInfo) : date_text di ≠ [] := by
  intro h
  simp [date_text, List.append_eq_nil] at h

/-- C6 (amended): patching twice with the same date and cards equals
patching once, on documents in the expected layout: one well-formed date
span whose text has no `<`, later the unique marker comment, the first
closing sequence after it, and a tail free of both anchors; the composed
date text has no `<` and no backslash, the rendered cards have no
backslash, and the once-patched document carries no stray anchors either
(each condition is a decidable hypothesis).  Without them the patch is
not idempotent — see the counterexample, where a date text containing
`</span>` makes the second patch duplicate the date span. -/
theorem c6_idempotent (di : DateInfo) (ss : List Section)
    (p1 t p2 mid cl post m2 c2 : Str)
    (h1 : noChar '\\' (new_date di) = true)
    (h2 : noChar '<' (date_text di) = true)
    (h3 : noChar '<' t = true)
    (h4 : t ≠ [])
    (h5 : noDateStartIn
      (p1 ++ (openSpanS ++ (t ++ (closeSpanS ++
        (p2 ++ (markerS ++ (mid ++ (cl ++ post)))))))) p1.length = true)
    (h6 : noDateStart (p2 ++ (markerS ++ (mid ++ (cl ++ post)))) = true)
    (h7 : noStartIn markerS
      ((p1 ++ (new_date di ++ p2)) ++ (markerS ++ (mid ++ (cl ++ post))))
      (p1 ++ (new_date di ++ p2)).length = true)
    (h8 : findClose (mid ++ (cl ++ post)) = some (mid, cl, post))
    (h9 : noOcc markerS post = true)
    (h10 : noChar '\\' (cards_repl (renderCards ss)) = true)
    (h11 : noDateStartIn
      (p1 ++ (openSpanS ++ (date_text di ++ (closeSpanS ++
        (p2 ++ (cards_repl (renderCards ss) ++ post)))))) p1.length = true)
    (h12 : noDateStart (p2 ++ (cards_repl (renderCards ss) ++ post)) = true)
    (h13 : noStartIn markerS
      ((p1 ++ (new_date di ++ p2)) ++ (markerS ++ (m2 ++ (c2 ++ post))))
      (p1 ++ (new_date di ++ p2)).length = true)
    (h14 : findClose (nlS ++ (joinSep blankS (renderCards ss) ++
      (scaffoldS ++ post))) = some (m2, c2, post)) :
    update_index_html
        (p1 ++ (openSpanS ++ (t ++ (closeSpanS ++
          (p2 ++ (markerS ++ (mid ++ (cl ++ post))))))))
        di (.ok (NewsData.mk ss)) =
      .ok ((p1 ++ (new_date di ++ p2)) ++
        (cards_repl (renderCards ss) ++ post)) ∧
    update_index_html
        ((p1 ++ (new_date di ++ p2)) ++
          (cards_repl (renderCards ss) ++ post))
        di (.ok (NewsData.mk ss)) =
      .ok ((p1 ++ (new_date di ++ p2)) ++
        (cards_repl (renderCards ss) ++ post)) := by
  have hdlits := parseTemplate_noBackslash (g := 0) h1
  have hclits := parseTemplate_noBackslash (g := 2) h10
  have hd1 : dateSub (new_date di)
      (p1 ++ (openSpanS ++ (t ++ (closeSpanS ++
        (p2 ++ (markerS ++ (mid ++ (cl ++ post)))))))) =
      .ok (p1 ++ (new_date di ++
        (p2 ++ (markerS ++ (mid ++ (cl ++ post)))))) := by
    rw [dateSub, hdlits]
    simp only [Except.map]
    rw [dateScan_canonical h5 h3 h4 h6, renderItems_lits]
  have hassoc1 : p1 ++ (new_date di ++
      (p2 ++ (markerS ++ (mid ++ (cl ++ post))))) =
      (p1 ++ (new_date di ++ p2)) ++ (markerS ++ (mid ++ (cl ++ post))) := by
    simp [List.append_assoc]
  have hc1 : cardsSub (cards_repl (renderCards ss))
      ((p1 ++ (new_date di ++ p2)) ++ (markerS ++ (mid ++ (cl ++ post)))) =
      .ok ((p1 ++ (new_date di ++ p2)) ++
        (cards_repl (renderCards ss) ++ post)) := by
    rw [cardsSub, hclits]
    simp only [Except.map]
    rw [cardsScan_canonical h7 h8 h9, renderItems_lits]
  refine ⟨?_, ?_⟩
  · rw [update_index_html, hd1]
    simp only [bind, Except.bind]
    rw [hassoc1]
    exact hc1
  · have hassoc2 : (p1 ++ (new_date di ++ p2)) ++
        (cards_repl (renderCards ss) ++ post) =
        p1 ++ (openSpanS ++ (date_text di ++ (closeSpanS ++
          (p2 ++ (cards_repl (renderCards ss) ++ post))))) := by
      simp [new_date, List.append_assoc]
    have hd2 : dateSub (new_date di)
        ((p1 ++ (new_date di ++ p2)) ++
          (cards_repl (renderCards ss) ++ post)) =
        .ok ((p1 ++ (new_date di ++ p2)) ++
          (cards_repl (renderCards ss) ++ post)) := by
      rw [dateSub, hdlits]
      simp only [Except.map]
      rw [hassoc2, dateScan_canonical h11 h2 (date_text_ne_nil di) h12,
        renderItems_lits]
      simp [new_date, List.append_assoc]
    have hdec : nlS ++ (joinSep blankS (renderCards ss) ++
        (scaffoldS ++ post)) = m2 ++ (c2 ++ post) := findClose_decomp h14
    have hassoc3 : (p1 ++ (new_date di ++ p2)) ++
        (cards_repl (renderCards ss) ++ post) =
        (p1 ++ (new_date di ++ p2)) ++
          (markerS ++ (m2 ++ (c2 ++ post))) := by
      rw [← hdec]
      simp [cards_repl, List.append_assoc]
    have hfc2 : findClose (m2 ++ (c2 ++ post)) = some (m2, c2, post) := by
      rw [← hdec]
      exact h14
    have hc2 : cardsSub (cards_repl (renderCards ss))
        ((p1 ++ (new_date di ++ p2)) ++
          (markerS ++ (m2 ++ (c2 ++ post)))) =
        .ok ((p1 ++ (new_date di ++ p2)) ++
          (cards_repl (renderCards ss) ++ post)) := by
      rw [cardsSub, hclits]
      simp only [Except.map]
      rw [cardsScan_canonical h13 hfc2 h9, renderItems_lits]
    rw [update_index_html, hd2]
    simp only [bind, Except.bind]
    conv_lhs => rw [hassoc3]
    exact hc2

set_option maxHeartbeats 8000000 in
set_option maxRecDepth 100000 in
/-- Witness for the amended C6 at a concrete document: one date span, one
marker, one card; patching the once-patched document reproduces it. -/
theorem c6_idempotent_witness :
    update_index_html
        ("A".data ++ (openSpanS ++ ("old".data ++ (closeSpanS ++
          ("B".data ++ (markerS ++ ("M".data ++
            ("</div></div></div></body>".data ++ "Z".data))))))))
        (DateInfo.mk "Mon".data "Jan".data "01".data "2026".data)
        (.ok (NewsData.mk [Section.mk "L".data "H".data [] []])) =
      .ok (("A".data ++
          (new_date (DateInfo.mk "Mon".data "Jan".data "01".data
            "2026".data) ++ "B".data)) ++
        (cards_repl (renderCards [Section.mk "L".data "H".data [] []]) ++
          "Z".data)) ∧
    update_index_html
        (("A".data ++
          (new_date (DateInfo.mk "Mon".data "Jan".data "01".data
            "2026".data) ++ "B".data)) ++
          (cards_repl (renderCards [Section.mk "L".data "H".data [] []]) ++
            "Z".data))
        (DateInfo.mk "Mon".data "Jan".data "01".data "2026".data)
        (.ok (NewsData.mk [Section.mk "L".data "H".data [] []])) =
      .ok (("A".data ++
          (new_date (DateInfo.mk "Mon".data "Jan".data "01".data
            "2026".data) ++ "B".data)) ++
        (cards_repl (renderCards [Section.mk "L".data "H".data [] []]) ++
          "Z".data)) :=
  c6_idempotent
    (DateInfo.mk "Mon".data "Jan".data "01".data "2026".data)
    [Section.mk "L".data "H".data [] []]
    "A".data "old".data "B".data "M".data
    "</div></div></div></body>".data "Z".data
    (nlS ++ (build_card_html (Section.mk "L".data "H".data [] []) false).take
      ((build_card_html (Section.mk "L".data "H".data [] []) false).length -
        6))
    (divCloseS ++ scaffoldS)
    (by decide) (by decide) (by decide) (by decide) (by decide) (by decide)
    (by decide) (by decide) (by decide) (by decide) (by decide) (by decide)
    (by decide) (by decide)

set_option maxHeartbeats 4000000 in
set_option maxRecDepth 10000 in
/-- C6 counterexample: with a date text containing `</span>`, the second
patch matches inside the text the first patch wrote and duplicates the
date span, so patching twice differs from patching once. -/
theorem c6_counterexample :
    update_index_html "<span id=\"date-text\">old</span>".data
        (DateInfo.mk "a</span><span id=\"date-text\">b".data "m".data
          "d".data "y".data) (.ok (NewsData.mk [])) =
      .ok (new_date (DateInfo.mk "a</span><span id=\"date-text\">b".data
        "m".data "d".data "y".data)) ∧
    update_index_html
        (new_date (DateInfo.mk "a</span><span id=\"date-text\">b".data
          "m".data "d".data "y".data))
        (DateInfo.mk "a</span><span id=\"date-text\">b".data "m".data
          "d".data "y".data) (.ok (NewsData.mk [])) =
      .ok (new_date (DateInfo.mk "a</span><span id=\"date-text\">b".data
        "m".data "d".data "y".data) ++
        new_date (DateInfo.mk "a</span><span id=\"date-text\">b".data
          "m".data "d".data "y".data)) ∧
    new_date (DateInfo.mk "a</span><span id=\"date-text\">b".data "m".data
        "d".data "y".data) ++
      new_date (DateInfo.mk "a</span><span id=\"date-text\">b".data
        "m".data "d".data "y".data) ≠
    new_date (DateInfo.mk "a</span><span id=\"date-text\">b".data "m".data
      "d".data "y".data) := by
  refine ⟨by decide, by decide, by decide⟩

end UpdateNews
